import Mathlib

/-!
Verification of the `env_perm` crate (src/lib.rs): a library that permanently
sets or appends environment variables, either by appending `export` lines to a
shell profile file (unix path) or by invoking the `setx` command (windows
path).

The embedding is shallow.  Paths are modelled as (directory, filename) pairs,
mirroring `PathBuf::push`/`pop` of a single component.  The filesystem is a
map from paths to file contents; opening a file in append mode without
`create` succeeds exactly when the file exists, and the final creating open of
`find_profile` succeeds when the file exists or `canCreate` holds (the flag
stands for the OS allowing creation, e.g. permissions).  Environment values
are `OsVal`: either decodable text or a non-Unicode value carrying the debug
rendering of its raw bytes, mirroring the `Ok`/`Err(VarError::NotUnicode)`
outcomes of `std::env::var`.  The windows subprocess is modelled by a function
from invocations to spawn results.
-/

namespace EnvPerm

/-- A filesystem path, as (directory, filename): `find_profile` builds each
candidate by `push`ing a filename onto the home directory. -/
abbrev Path := String × String

/-- The unix-side state: the resolved home directory (`dirs::home_dir()`,
`none` when it cannot be resolved), the files that exist with their contents,
and whether the final `create(true)` open is permitted by the OS. -/
structure Fs where
  home : Option String
  file : Path → Option String
  canCreate : Bool

/-- Appending a string to the file open at `p` (the file exists whenever a
handle to it was obtained, so `getD ""` is only a formality). -/
def writeTo (fs : Fs) (p : Path) (s : String) : Fs :=
  { fs with file := fun q => if q = p then some (((fs.file p).getD "") ++ s) else fs.file q }

/-- The state after `OpenOptions::new().append(true).create(true)` creates a
missing file: it exists with empty content. -/
def createEmpty (fs : Fs) (p : Path) : Fs :=
  { fs with file := fun q => if q = p then some "" else fs.file q }

/-- An open with `create(true)`: opens the file if it exists, otherwise
creates it empty and opens it. -/
def openCreate (fs : Fs) (p : Path) : Path × Fs :=
  match fs.file p with
  | some _ => (p, fs)
  | none => (p, createEmpty fs p)

/-- `find_profile` (src/lib.rs:131-153): starting from the home directory,
try `.bash_profile`, `.bash_login`, `.profile` in append mode without
creation; if all three opens fail, retry `.bash_profile` with `create(true)`.
Returns the opened path and the (possibly extended) filesystem. -/
def find_profile (fs : Fs) (h : String) : Option (Path × Fs) :=
  match fs.file (h, ".bash_profile") with
  | some _ => some ((h, ".bash_profile"), fs)
  | none =>
    match fs.file (h, ".bash_login") with
    | some _ => some ((h, ".bash_login"), fs)
    | none =>
      match fs.file (h, ".profile") with
      | some _ => some ((h, ".profile"), fs)
      | none =>
        if fs.canCreate then some (openCreate fs (h, ".bash_profile"))
        else none

/-- `get_profile` (src/lib.rs:124-128): resolve the home directory, then run
`find_profile`; fails when no home directory is available. -/
def get_profile (fs : Fs) : Option (Path × Fs) :=
  match fs.home with
  | none => none
  | some h => find_profile fs h

/-- `set` on unix (src/lib.rs:80-85): open the profile and append
`writeln!(profile, "\nexport {}={}", var, value)`, i.e. the bytes
`"\nexport NAME=VALUE\n"`. -/
def set (fs : Fs) (var value : String) : Option Fs :=
  (get_profile fs).map fun pf =>
    writeTo pf.2 pf.1 ("\nexport " ++ var ++ "=" ++ value ++ "\n")

/-- `append` on unix (src/lib.rs:49-54): open the profile and append
`writeln!(profile, "\nexport {}=\"{}:${}\"", var, value, var)`. -/
def append (fs : Fs) (var value : String) : Option Fs :=
  (get_profile fs).map fun pf =>
    writeTo pf.2 pf.1 ("\nexport " ++ var ++ "=\"" ++ value ++ ":$" ++ var ++ "\"\n")

/-- An environment value as seen through `std::env::var`: decodable text, or
a non-Unicode value of which only the `{:?}` rendering is kept. -/
inductive OsVal where
  | text (s : String)
  | nonUnicode (dbg : String)
deriving DecidableEq

/-- The process environment. -/
def Env := String → Option OsVal

/-- `std::env::VarError`. -/
inductive VarError where
  | notPresent
  | notUnicode (dbg : String)
deriving DecidableEq

/-- `std::env::var`: `Ok` for a present decodable value, `Err(NotPresent)`
for a missing one, `Err(NotUnicode(..))` for a present non-Unicode one. -/
def envVar (env : Env) (name : String) : Except VarError String :=
  match env name with
  | none => .error .notPresent
  | some (.text s) => .ok s
  | some (.nonUnicode d) => .error (.notUnicode d)

/-- `check_or_set` (src/lib.rs:37-44), unix instantiation:
`env::var(&var).map(|_| ()).or_else(|_| set(var, value))` — any lookup error
(absence or a non-Unicode value) falls through to `set`. -/
def check_or_set (env : Env) (fs : Fs) (var value : String) : Option Fs :=
  match envVar env var with
  | .ok _ => some fs
  | .error _ => set fs var value

/-- A one-shot external command invocation: program and argument list. -/
structure Invoked where
  program : String
  args : List String
deriving DecidableEq

/-- Captured standard error of the subprocess, as seen through
`String::from_utf8`: decoded text or undecodable bytes. -/
inductive Stderr where
  | utf8 (s : String)
  | invalid
deriving DecidableEq

/-- `std::process::Output` as used by the windows `set`: the status success
flag, the status code (`None` only on unix per the standard library docs, as
the source comment notes), and captured stderr. -/
structure CmdOutput where
  success : Bool
  code : Option Int
  stderr : Stderr

/-- Result of `Command::output()`: a spawn error or a completed run. -/
inductive Spawn where
  | spawnErr (e : String)
  | ok (out : CmdOutput)

/-- The invocation built by the windows `set`:
`Command::new("setx").arg(var).arg(format!("\"{}\"", value))`. -/
def setxInvoked (var value : String) : Invoked :=
  { program := "setx", args := [var, "\"" ++ value ++ "\""] }

/-- The stderr part of the windows `set` error message. -/
def stderrNote : Stderr → String
  | .utf8 s => "setx wrote the following to stderr:\n" ++ s
  | .invalid => "stderr content cannot be displayed because is not utf-8."

/-- The exit-status part of the windows `set` error message. -/
def codeNote : Option Int → String
  | some i => "setx exitted with status code " ++ toString i
  | none => "The exit code for setx could not be determined."

/-- `set` on windows (src/lib.rs:86-122): invoke `setx var "value"`;
propagate a spawn error; on a non-success exit build the error message from
the status code and the captured stderr.  Returns the invocation made
together with the call's result. -/
def set_w (os : Invoked → Spawn) (var value : String) :
    Invoked × Except String Unit :=
  let inv := setxInvoked var value
  (inv,
    match os inv with
    | .spawnErr e => .error e
    | .ok out =>
      if out.success then .ok ()
      else .error (codeNote out.code ++ stderrNote out.stderr))

/-- The `reason` string of the windows `append` error branch. -/
def varErrorReason : VarError → String
  | .notPresent => "Not present"
  | .notUnicode d => "Non unicode value " ++ d

/-- `append` on windows (src/lib.rs:55-72): read the current value with
`env::var`; on success call `set` with `format!("{}; {}", value, current)`;
on failure return an error built from the `VarError`, making no invocation.
The first component lists the subprocess invocations performed. -/
def append_w (env : Env) (os : Invoked → Spawn) (var value : String) :
    List Invoked × Except String Unit :=
  match envVar env var with
  | .ok current =>
    let r := set_w os var (value ++ "; " ++ current)
    ([r.1], r.2)
  | .error e =>
    ([], .error ("Could not environment variable " ++ var ++ ". Reason: "
        ++ varErrorReason e))

/-- `check_or_set` (src/lib.rs:37-44), windows instantiation: same dispatch,
delegating to the windows `set`. -/
def check_or_set_w (env : Env) (os : Invoked → Spawn) (var value : String) :
    List Invoked × Except String Unit :=
  match envVar env var with
  | .ok _ => ([], .ok ())
  | .error _ =>
    let r := set_w os var value
    ([r.1], r.2)

/-! ### Basic lemmas about the filesystem model -/

@[simp] theorem writeTo_home (fs : Fs) (p : Path) (s : String) :
    (writeTo fs p s).home = fs.home := rfl

@[simp] theorem createEmpty_home (fs : Fs) (p : Path) :
    (createEmpty fs p).home = fs.home := rfl

@[simp] theorem writeTo_canCreate (fs : Fs) (p : Path) (s : String) :
    (writeTo fs p s).canCreate = fs.canCreate := rfl

theorem writeTo_file_self (fs : Fs) (p : Path) (s : String) :
    (writeTo fs p s).file p = some (((fs.file p).getD "") ++ s) := by
  simp [writeTo]

theorem writeTo_file_ne (fs : Fs) (p q : Path) (s : String) (h : q ≠ p) :
    (writeTo fs p s).file q = fs.file q := by
  simp [writeTo, h]

theorem createEmpty_file_self (fs : Fs) (p : Path) :
    (createEmpty fs p).file p = some "" := by
  simp [createEmpty]

theorem createEmpty_file_ne (fs : Fs) (p q : Path) (h : q ≠ p) :
    (createEmpty fs p).file q = fs.file q := by
  simp [createEmpty, h]

/-! ### Characterisation of the profile lookup chain -/

theorem find_profile_of_bash_profile (fs : Fs) (h : String) (c : String)
    (h1 : fs.file (h, ".bash_profile") = some c) :
    find_profile fs h = some ((h, ".bash_profile"), fs) := by
  simp [find_profile, h1]

theorem find_profile_of_bash_login (fs : Fs) (h : String) (c : String)
    (h1 : fs.file (h, ".bash_profile") = none)
    (h2 : fs.file (h, ".bash_login") = some c) :
    find_profile fs h = some ((h, ".bash_login"), fs) := by
  simp [find_profile, h1, h2]

theorem find_profile_of_profile (fs : Fs) (h : String) (c : String)
    (h1 : fs.file (h, ".bash_profile") = none)
    (h2 : fs.file (h, ".bash_login") = none)
    (h3 : fs.file (h, ".profile") = some c) :
    find_profile fs h = some ((h, ".profile"), fs) := by
  simp [find_profile, h1, h2, h3]

theorem find_profile_creates (fs : Fs) (h : String)
    (h1 : fs.file (h, ".bash_profile") = none)
    (h2 : fs.file (h, ".bash_login") = none)
    (h3 : fs.file (h, ".profile") = none)
    (hc : fs.canCreate = true) :
    find_profile fs h = some ((h, ".bash_profile"), createEmpty fs (h, ".bash_profile")) := by
  simp [find_profile, h1, h2, h3, hc, openCreate]

theorem find_profile_fails (fs : Fs) (h : String)
    (h1 : fs.file (h, ".bash_profile") = none)
    (h2 : fs.file (h, ".bash_login") = none)
    (h3 : fs.file (h, ".profile") = none)
    (hc : fs.canCreate = false) :
    find_profile fs h = none := by
  simp [find_profile, h1, h2, h3, hc]

/-- Inversion for `find_profile`: the opened profile exists afterwards. -/
theorem find_profile_inv (fs : Fs) (h : String) (p : Path) (fs' : Fs)
    (hfp : find_profile fs h = some (p, fs')) : ∃ c, fs'.file p = some c := by
  unfold find_profile at hfp
  cases h1 : fs.file (h, ".bash_profile") with
  | some c =>
    simp only [h1, Option.some.injEq, Prod.mk.injEq] at hfp
    obtain ⟨hp, hfs⟩ := hfp
    exact ⟨c, by rw [← hfs, ← hp]; exact h1⟩
  | none =>
    cases h2 : fs.file (h, ".bash_login") with
    | some c =>
      simp only [h1, h2, Option.some.injEq, Prod.mk.injEq] at hfp
      obtain ⟨hp, hfs⟩ := hfp
      exact ⟨c, by rw [← hfs, ← hp]; exact h2⟩
    | none =>
      cases h3 : fs.file (h, ".profile") with
      | some c =>
        simp only [h1, h2, h3, Option.some.injEq, Prod.mk.injEq] at hfp
        obtain ⟨hp, hfs⟩ := hfp
        exact ⟨c, by rw [← hfs, ← hp]; exact h3⟩
      | none =>
        cases hc : fs.canCreate with
        | false => simp [h1, h2, h3, hc] at hfp
        | true =>
          simp only [h1, h2, h3, hc, if_true, openCreate,
            Option.some.injEq, Prod.mk.injEq] at hfp
          obtain ⟨hp, hfs⟩ := hfp
          exact ⟨"", by rw [← hfs, ← hp]; exact createEmpty_file_self fs _⟩

/-- The opened profile always exists afterwards. -/
theorem get_profile_file_exists (fs : Fs) (p : Path) (fs' : Fs)
    (hgp : get_profile fs = some (p, fs')) : ∃ c, fs'.file p = some c := by
  unfold get_profile at hgp
  cases hh : fs.home with
  | none => simp [hh] at hgp
  | some h =>
    simp only [hh] at hgp
    exact find_profile_inv fs h p fs' hgp

theorem get_profile_eq (fs : Fs) (h : String) (hh : fs.home = some h) :
    get_profile fs = find_profile fs h := by
  simp [get_profile, hh]

theorem path_ne_of_snd_ne {h : String} {a b : String} (hab : a ≠ b) :
    ((h, a) : Path) ≠ (h, b) :=
  fun e => hab (congrArg Prod.snd e)

/-- Full inversion of a successful `find_profile`. -/
theorem find_profile_cases (fs : Fs) (h : String) (p : Path) (fs' : Fs)
    (hfp : find_profile fs h = some (p, fs')) :
    (fs' = fs ∧ p = (h, ".bash_profile") ∧ ∃ c, fs.file p = some c) ∨
    (fs' = fs ∧ p = (h, ".bash_login") ∧ fs.file (h, ".bash_profile") = none ∧
      ∃ c, fs.file p = some c) ∨
    (fs' = fs ∧ p = (h, ".profile") ∧ fs.file (h, ".bash_profile") = none ∧
      fs.file (h, ".bash_login") = none ∧ ∃ c, fs.file p = some c) ∨
    (p = (h, ".bash_profile") ∧ fs' = createEmpty fs p ∧
      fs.file (h, ".bash_profile") = none ∧ fs.file (h, ".bash_login") = none ∧
      fs.file (h, ".profile") = none ∧ fs.canCreate = true) := by
  unfold find_profile at hfp
  cases h1 : fs.file (h, ".bash_profile") with
  | some c =>
    simp only [h1, Option.some.injEq, Prod.mk.injEq] at hfp
    obtain ⟨hp, hfs⟩ := hfp
    subst hp; subst hfs
    exact Or.inl ⟨rfl, rfl, c, h1⟩
  | none =>
    cases h2 : fs.file (h, ".bash_login") with
    | some c =>
      simp only [h1, h2, Option.some.injEq, Prod.mk.injEq] at hfp
      obtain ⟨hp, hfs⟩ := hfp
      subst hp; subst hfs
      exact Or.inr (Or.inl ⟨rfl, rfl, rfl, c, h2⟩)
    | none =>
      cases h3 : fs.file (h, ".profile") with
      | some c =>
        simp only [h1, h2, h3, Option.some.injEq, Prod.mk.injEq] at hfp
        obtain ⟨hp, hfs⟩ := hfp
        subst hp; subst hfs
        exact Or.inr (Or.inr (Or.inl ⟨rfl, rfl, rfl, rfl, c, h3⟩))
      | none =>
        cases hc : fs.canCreate with
        | false => simp [h1, h2, h3, hc] at hfp
        | true =>
          simp only [h1, h2, h3, hc, if_true, openCreate,
            Option.some.injEq, Prod.mk.injEq] at hfp
          obtain ⟨hp, hfs⟩ := hfp
          subst hp; subst hfs
          exact Or.inr (Or.inr (Or.inr ⟨rfl, rfl, rfl, rfl, rfl, rfl⟩))

/-- After appending to the profile obtained from a successful lookup, the
lookup still finds the same profile and performs no further change. -/
theorem get_profile_writeTo (fs : Fs) (p : Path) (fs' : Fs) (s : String)
    (hgp : get_profile fs = some (p, fs')) :
    get_profile (writeTo fs' p s) = some (p, writeTo fs' p s) := by
  unfold get_profile at hgp
  cases hh : fs.home with
  | none => simp [hh] at hgp
  | some h =>
    simp only [hh] at hgp
    rcases find_profile_cases fs h p fs' hgp with
      ⟨hfs, hp, c, hex⟩ | ⟨hfs, hp, h1, c, hex⟩ | ⟨hfs, hp, h1, h2, c, hex⟩ |
      ⟨hp, hfs, h1, h2, h3, hc⟩
    · subst hfs; subst hp
      rw [get_profile_eq _ h (by simpa using hh)]
      exact find_profile_of_bash_profile _ h _ (writeTo_file_self _ _ s)
    · subst hfs; subst hp
      rw [get_profile_eq _ h (by simpa using hh)]
      refine find_profile_of_bash_login _ h _ ?_ (writeTo_file_self _ _ s)
      rw [writeTo_file_ne _ _ _ s (path_ne_of_snd_ne (by decide))]
      exact h1
    · subst hfs; subst hp
      rw [get_profile_eq _ h (by simpa using hh)]
      refine find_profile_of_profile _ h _ ?_ ?_ (writeTo_file_self _ _ s)
      · rw [writeTo_file_ne _ _ _ s (path_ne_of_snd_ne (by decide))]
        exact h1
      · rw [writeTo_file_ne _ _ _ s (path_ne_of_snd_ne (by decide))]
        exact h2
    · subst hp; subst hfs
      rw [get_profile_eq _ h (by simpa using hh)]
      exact find_profile_of_bash_profile _ h _ (writeTo_file_self _ _ s)

/-! ### Concrete states used to exercise the theorems -/

/-- A home directory containing only `.profile`, with content `"old"`. -/
def fsOnlyProfile : Fs :=
  { home := some "/home/user"
    file := fun q => if q = ("/home/user", ".profile") then some "old" else none
    canCreate := true }

/-- An empty home directory where file creation is permitted. -/
def fsEmptyHome : Fs :=
  { home := some "/home/user", file := fun _ => none, canCreate := true }

/-- An environment with no variables. -/
def envEmpty : Env := fun _ => none

/-- An environment where every variable has the text value `"cur"`. -/
def envCur : Env := fun _ => some (.text "cur")

/-- An environment where `DUMMY` is present but its value is not Unicode. -/
def envDummyBad : Env := fun n =>
  if n = "DUMMY" then some (.nonUnicode "bad bytes") else none

/-- An OS that runs every command successfully. -/
def osAccept : Invoked → Spawn :=
  fun _ => .ok { success := true, code := some 0, stderr := .utf8 "" }

/-- An OS that runs every command with exit code 2 and stderr `"boom"`. -/
def osReject : Invoked → Spawn :=
  fun _ => .ok { success := false, code := some 2, stderr := .utf8 "boom" }

/-! ### Claims -/

/-- Claim C4: on the POSIX path, for every name and value, `set` appends to
the chosen profile file exactly the text `"\nexport NAME=VALUE\n"` — a
leading newline, the export line, a trailing newline — with no quoting added
beyond what the caller supplied. -/
theorem set_appends_exact_export_line (fs : Fs) (n v : String) (p : Path)
    (fs' : Fs) (c : String)
    (hgp : get_profile fs = some (p, fs')) (hc : fs'.file p = some c) :
    set fs n v = some (writeTo fs' p ("\nexport " ++ n ++ "=" ++ v ++ "\n")) ∧
    (writeTo fs' p ("\nexport " ++ n ++ "=" ++ v ++ "\n")).file p
      = some (c ++ ("\nexport " ++ n ++ "=" ++ v ++ "\n")) := by
  refine ⟨by simp [set, hgp], ?_⟩
  rw [writeTo_file_self, hc]
  simp

theorem set_appends_exact_export_line_witness :
    set fsOnlyProfile "FOO" "1"
      = some (writeTo fsOnlyProfile ("/home/user", ".profile") "\nexport FOO=1\n") ∧
    (writeTo fsOnlyProfile ("/home/user", ".profile") "\nexport FOO=1\n").file
      ("/home/user", ".profile") = some "old\nexport FOO=1\n" :=
  set_appends_exact_export_line fsOnlyProfile "FOO" "1" ("/home/user", ".profile")
    fsOnlyProfile "old" rfl rfl

/-- Claim C5: on the POSIX path, for every name and value, `append` appends
to the chosen profile file a line of exactly the form
`export NAME="VALUE:$NAME"`, with `$NAME` written literally. -/
theorem append_appends_export_colon_line (fs : Fs) (n v : String) (p : Path)
    (fs' : Fs) (c : String)
    (hgp : get_profile fs = some (p, fs')) (hc : fs'.file p = some c) :
    append fs n v
      = some (writeTo fs' p ("\nexport " ++ n ++ "=\"" ++ v ++ ":$" ++ n ++ "\"\n")) ∧
    (writeTo fs' p ("\nexport " ++ n ++ "=\"" ++ v ++ ":$" ++ n ++ "\"\n")).file p
      = some (c ++ ("\nexport " ++ n ++ "=\"" ++ v ++ ":$" ++ n ++ "\"\n")) := by
  refine ⟨by simp [append, hgp], ?_⟩
  rw [writeTo_file_self, hc]
  simp

theorem append_appends_export_colon_line_witness :
    append fsOnlyProfile "PATH" "/x"
      = some (writeTo fsOnlyProfile ("/home/user", ".profile")
          "\nexport PATH=\"/x:$PATH\"\n") ∧
    (writeTo fsOnlyProfile ("/home/user", ".profile")
        "\nexport PATH=\"/x:$PATH\"\n").file ("/home/user", ".profile")
      = some "old\nexport PATH=\"/x:$PATH\"\n" :=
  append_appends_export_colon_line fsOnlyProfile "PATH" "/x"
    ("/home/user", ".profile") fsOnlyProfile "old" rfl rfl

/-- Claim C6: for every variable name absent from the process environment and
every value, `check_or_set` has exactly the same result and effect as `set`:
the two calls are equal as state transformers, so in particular they append
the same single export line. -/
theorem check_or_set_absent_eq_set (env : Env) (fs : Fs) (n v : String)
    (h : env n = none) : check_or_set env fs n v = set fs n v := by
  simp [check_or_set, envVar, h]

theorem check_or_set_absent_eq_set_witness :
    check_or_set envEmpty fsOnlyProfile "FOO" "1" = set fsOnlyProfile "FOO" "1" :=
  check_or_set_absent_eq_set envEmpty fsOnlyProfile "FOO" "1" rfl

/-- Claim C3: on the POSIX path the profile lookup tries, in order,
`.bash_profile`, `.bash_login`, `.profile`, opening the first that exists in
append mode; if none exists it creates `.bash_profile` (empty) and opens it;
and it fails exactly when the home directory cannot be resolved or, with no
candidate present, the creating open fails. -/
theorem profile_chain_spec (fs : Fs) :
    (fs.home = none → get_profile fs = none) ∧
    ∀ h, fs.home = some h →
      ((∀ c, fs.file (h, ".bash_profile") = some c →
          get_profile fs = some ((h, ".bash_profile"), fs)) ∧
       (fs.file (h, ".bash_profile") = none →
          ∀ c, fs.file (h, ".bash_login") = some c →
          get_profile fs = some ((h, ".bash_login"), fs)) ∧
       (fs.file (h, ".bash_profile") = none → fs.file (h, ".bash_login") = none →
          ∀ c, fs.file (h, ".profile") = some c →
          get_profile fs = some ((h, ".profile"), fs)) ∧
       (fs.file (h, ".bash_profile") = none → fs.file (h, ".bash_login") = none →
          fs.file (h, ".profile") = none → fs.canCreate = true →
          get_profile fs
            = some ((h, ".bash_profile"), createEmpty fs (h, ".bash_profile")) ∧
          (createEmpty fs (h, ".bash_profile")).file (h, ".bash_profile") = some "") ∧
       (get_profile fs = none ↔
          fs.file (h, ".bash_profile") = none ∧ fs.file (h, ".bash_login") = none ∧
          fs.file (h, ".profile") = none ∧ fs.canCreate = false)) := by
  refine ⟨fun h0 => by simp [get_profile, h0], fun h hh => ?_⟩
  rw [get_profile_eq fs h hh]
  refine ⟨fun c hc => find_profile_of_bash_profile fs h c hc,
    fun h1 c hc => find_profile_of_bash_login fs h c h1 hc,
    fun h1 h2 c hc => find_profile_of_profile fs h c h1 h2 hc,
    fun h1 h2 h3 hcr =>
      ⟨find_profile_creates fs h h1 h2 h3 hcr, createEmpty_file_self fs _⟩,
    ?_, ?_⟩
  · intro hn
    cases h1 : fs.file (h, ".bash_profile") with
    | some c => rw [find_profile_of_bash_profile fs h c h1] at hn; simp at hn
    | none =>
      cases h2 : fs.file (h, ".bash_login") with
      | some c => rw [find_profile_of_bash_login fs h c h1 h2] at hn; simp at hn
      | none =>
        cases h3 : fs.file (h, ".profile") with
        | some c => rw [find_profile_of_profile fs h c h1 h2 h3] at hn; simp at hn
        | none =>
          cases hc : fs.canCreate with
          | true => rw [find_profile_creates fs h h1 h2 h3 hc] at hn; simp at hn
          | false => exact ⟨rfl, rfl, rfl, rfl⟩
  · rintro ⟨h1, h2, h3, hc⟩
    exact find_profile_fails fs h h1 h2 h3 hc

theorem profile_chain_spec_witness :
    get_profile fsEmptyHome
      = some (("/home/user", ".bash_profile"),
          createEmpty fsEmptyHome ("/home/user", ".bash_profile")) ∧
    (createEmpty fsEmptyHome ("/home/user", ".bash_profile")).file
      ("/home/user", ".bash_profile") = some "" :=
  ((profile_chain_spec fsEmptyHome).2 "/home/user" rfl).2.2.2.1 rfl rfl rfl rfl

/-- Claim C8: calling `set` twice with the same name appends two independent
export lines: no deduplication happens and the call is not idempotent (the
file content after the second call differs from the content after the
first). -/
theorem set_twice_appends_two_lines (fs : Fs) (n v₁ v₂ : String) (p : Path)
    (fs' : Fs) (c : String)
    (hgp : get_profile fs = some (p, fs')) (hc : fs'.file p = some c) :
    ∃ fs₁ fs₂, set fs n v₁ = some fs₁ ∧ set fs₁ n v₂ = some fs₂ ∧
      fs₁.file p = some (c ++ ("\nexport " ++ n ++ "=" ++ v₁ ++ "\n")) ∧
      fs₂.file p = some ((c ++ ("\nexport " ++ n ++ "=" ++ v₁ ++ "\n"))
        ++ ("\nexport " ++ n ++ "=" ++ v₂ ++ "\n")) ∧
      fs₂.file p ≠ fs₁.file p := by
  have hst := get_profile_writeTo fs p fs' ("\nexport " ++ n ++ "=" ++ v₁ ++ "\n") hgp
  refine ⟨writeTo fs' p ("\nexport " ++ n ++ "=" ++ v₁ ++ "\n"),
    writeTo (writeTo fs' p ("\nexport " ++ n ++ "=" ++ v₁ ++ "\n")) p
      ("\nexport " ++ n ++ "=" ++ v₂ ++ "\n"),
    by simp [set, hgp], by simp [set, hst], ?_, ?_, ?_⟩
  · rw [writeTo_file_self, hc]; simp
  · rw [writeTo_file_self, writeTo_file_self, hc]; simp
  · rw [writeTo_file_self, writeTo_file_self, hc]
    simp only [Option.getD_some, ne_eq, Option.some.injEq]
    intro heq
    have hlen := congrArg String.length heq
    have hnl : ("\n" : String).length = 1 := rfl
    simp only [String.length_append, hnl] at hlen
    omega

theorem set_twice_appends_two_lines_witness :
    ∃ fs₁ fs₂, set fsOnlyProfile "FOO" "1" = some fs₁ ∧ set fs₁ "FOO" "2" = some fs₂ ∧
      fs₁.file ("/home/user", ".profile") = some "old\nexport FOO=1\n" ∧
      fs₂.file ("/home/user", ".profile") = some "old\nexport FOO=1\n\nexport FOO=2\n" ∧
      fs₂.file ("/home/user", ".profile") ≠ fs₁.file ("/home/user", ".profile") :=
  set_twice_appends_two_lines fsOnlyProfile "FOO" "1" "2" ("/home/user", ".profile")
    fsOnlyProfile "old" rfl rfl

/-- Claim C9: when the home directory contains only `.profile`,
`set("FOO", 1)` appends `"\nexport FOO=1\n"` to `.profile`; the candidates
`.bash_profile` and `.bash_login` are still absent afterwards and every path
other than `.profile` is unchanged. -/
theorem set_only_profile_frame (fs : Fs) (h : String) (c : String)
    (hh : fs.home = some h)
    (h1 : fs.file (h, ".bash_profile") = none)
    (h2 : fs.file (h, ".bash_login") = none)
    (h3 : fs.file (h, ".profile") = some c) :
    ∃ fs₂, set fs "FOO" "1" = some fs₂ ∧
      fs₂.file (h, ".profile") = some (c ++ "\nexport FOO=1\n") ∧
      fs₂.file (h, ".bash_profile") = none ∧
      fs₂.file (h, ".bash_login") = none ∧
      ∀ q, q ≠ (h, ".profile") → fs₂.file q = fs.file q := by
  have hgp : get_profile fs = some ((h, ".profile"), fs) := by
    rw [get_profile_eq fs h hh]
    exact find_profile_of_profile fs h c h1 h2 h3
  refine ⟨writeTo fs (h, ".profile") "\nexport FOO=1\n",
    by simp [set, hgp], ?_, ?_, ?_, ?_⟩
  · rw [writeTo_file_self, h3]; rfl
  · rw [writeTo_file_ne _ _ _ _ (path_ne_of_snd_ne (by decide))]; exact h1
  · rw [writeTo_file_ne _ _ _ _ (path_ne_of_snd_ne (by decide))]; exact h2
  · intro q hq
    exact writeTo_file_ne _ _ _ _ hq

theorem set_only_profile_frame_witness :
    ∃ fs₂, set fsOnlyProfile "FOO" "1" = some fs₂ ∧
      fs₂.file ("/home/user", ".profile") = some "old\nexport FOO=1\n" ∧
      fs₂.file ("/home/user", ".bash_profile") = none ∧
      fs₂.file ("/home/user", ".bash_login") = none ∧
      fs₂.file ("/etc", "passwd") = none := by
  obtain ⟨fs₂, hset, hp, hbp, hbl, hframe⟩ :=
    set_only_profile_frame fsOnlyProfile "/home/user" "old" rfl rfl rfl rfl
  refine ⟨fs₂, hset, hp, hbp, hbl, ?_⟩
  rw [hframe ("/etc", "passwd") (by decide)]
  rfl

/-- Claim C1, counterexample: `DUMMY` is present in the environment (with a
non-Unicode value), yet `check_or_set` writes an export line to the profile,
because `env::var(..).or_else(|_| set(..))` treats `Err(NotUnicode)` like
absence. -/
theorem check_or_set_writes_for_present_nonunicode :
    (envDummyBad "DUMMY").isSome = true ∧
    fsOnlyProfile.file ("/home/user", ".profile") = some "old" ∧
    Option.map (fun fs => fs.file ("/home/user", ".profile"))
      (check_or_set envDummyBad fsOnlyProfile "DUMMY" "1")
      = some (some "old\nexport DUMMY=1\n") :=
  ⟨rfl, rfl, rfl⟩

/-- Claim C1 (amended): for every variable name present in the environment
with a Unicode-decodable value, `check_or_set` returns success and performs
no write — the unix state is returned unchanged and on the native-store path
no subprocess is invoked — for any value. -/
theorem check_or_set_present_unicode_no_effect (env : Env) (fs : Fs)
    (os : Invoked → Spawn) (n v s : String) (h : env n = some (.text s)) :
    check_or_set env fs n v = some fs ∧ check_or_set_w env os n v = ([], .ok ()) := by
  constructor <;> simp [check_or_set, check_or_set_w, envVar, h]

theorem check_or_set_present_unicode_no_effect_witness :
    check_or_set envCur fsEmptyHome "PATH" "x" = some fsEmptyHome ∧
    check_or_set_w envCur osAccept "PATH" "x" = ([], .ok ()) :=
  check_or_set_present_unicode_no_effect envCur fsEmptyHome osAccept "PATH" "x" "cur" rfl

/-- Claim C2, counterexample: on the native-store path, `append` with the
variable absent does not succeed with `"VALUE; "`: it returns the
`Not present` error and performs no invocation. -/
theorem append_w_absent_is_error :
    append_w envEmpty osAccept "PATH" "VALUE"
      = ([], .error "Could not environment variable PATH. Reason: Not present") ∧
    (append_w envEmpty osAccept "PATH" "VALUE").2 ≠ .ok () :=
  ⟨rfl, fun hcontra => Except.noConfusion hcontra⟩

/-- Claim C2 (amended): on the native-store path, `append(name, value)` with
the variable absent from the process environment fails: it returns the error
`Could not environment variable NAME. Reason: Not present`, invokes no
subprocess, and persists nothing. -/
theorem append_w_absent_error_message (env : Env) (os : Invoked → Spawn)
    (n v : String) (h : env n = none) :
    append_w env os n v
      = ([], .error ("Could not environment variable " ++ n
          ++ ". Reason: Not present")) := by
  have hlit : (". Reason: " : String) ++ "Not present" = ". Reason: Not present" := rfl
  simp [append_w, envVar, h, varErrorReason, String.append_assoc, hlit]

theorem append_w_absent_error_message_witness :
    append_w envEmpty osReject "HOME" "v"
      = ([], .error "Could not environment variable HOME. Reason: Not present") :=
  append_w_absent_error_message envEmpty osReject "HOME" "v" rfl

/-- Claim C7: the native-store `set` invokes `setx` with exactly two
arguments — the name and the value wrapped in double quotes; a spawn failure
is returned as an error; and a non-success exit with exit code `i` yields an
error whose message contains the exit code and, when stderr is decodable
text, the captured stderr text, otherwise the fixed non-utf-8 notice. -/
theorem set_w_two_args_and_error_reporting (os : Invoked → Spawn) (n v : String) :
    (set_w os n v).1 = { program := "setx", args := [n, "\"" ++ v ++ "\""] } ∧
    (set_w os n v).1.args.length = 2 ∧
    (∀ e, os (setxInvoked n v) = .spawnErr e → (set_w os n v).2 = .error e) ∧
    (∀ out i, os (setxInvoked n v) = .ok out → out.success = false →
      out.code = some i →
      ∃ m, (set_w os n v).2 = .error m ∧
        (∃ s₁ s₂, m = s₁ ++ toString i ++ s₂) ∧
        (∀ s, out.stderr = .utf8 s → ∃ s₃, m = s₃ ++ s) ∧
        (out.stderr = .invalid → ∃ s₄,
          m = s₄ ++ "stderr content cannot be displayed because is not utf-8.")) := by
  refine ⟨rfl, rfl, ?_, ?_⟩
  · intro e he
    simp [set_w, he]
  · intro out i ho hs hcode
    refine ⟨codeNote out.code ++ stderrNote out.stderr, by simp [set_w, ho, hs], ?_, ?_, ?_⟩
    · refine ⟨"setx exitted with status code ", stderrNote out.stderr, ?_⟩
      rw [hcode]
      simp [codeNote]
    · intro s hstderr
      refine ⟨codeNote out.code ++ "setx wrote the following to stderr:\n", ?_⟩
      rw [hstderr]
      simp [stderrNote, String.append_assoc]
    · intro hstderr
      exact ⟨codeNote out.code, by rw [hstderr]; simp [stderrNote]⟩

theorem set_w_two_args_and_error_reporting_witness :
    ∃ m, (set_w osReject "A" "B").2 = Except.error m ∧
      (∃ s₁ s₂, m = s₁ ++ toString (2 : Int) ++ s₂) ∧ (∃ s₃, m = s₃ ++ "boom") := by
  obtain ⟨m, hm, hcode, hstderr, _⟩ :=
    (set_w_two_args_and_error_reporting osReject "A" "B").2.2.2
      { success := false, code := some 2, stderr := .utf8 "boom" } 2 rfl rfl rfl
  exact ⟨m, hm, hcode, hstderr "boom" rfl⟩

/-- Claim C10: on the native-store path, whenever reading the variable's
current value fails — whether it is not present or its value is not valid
Unicode — `append` returns an error built from the failure reason, invokes
no subprocess (so `set` is never reached), and leaves the persistent store
unchanged. -/
theorem append_w_env_error_no_invocation (env : Env) (os : Invoked → Spawn)
    (n v : String) (e : VarError) (h : envVar env n = .error e) :
    append_w env os n v
      = ([], .error ("Could not environment variable " ++ n ++ ". Reason: "
          ++ varErrorReason e)) := by
  simp [append_w, h]

theorem append_w_env_error_no_invocation_witness :
    append_w envDummyBad osAccept "DUMMY" "v"
      = ([], .error
          "Could not environment variable DUMMY. Reason: Non unicode value bad bytes") :=
  append_w_env_error_no_invocation envDummyBad osAccept "DUMMY" "v"
    (.notUnicode "bad bytes") rfl

end EnvPerm
